import Mathlib

/-!
Verification development for the LinguaVoice-Transcribe repository.

The development shallowly embeds the parts of the code the claims are
about:

* `floatTo16BitPCM` / `pcm16` — the PCM16 frame encoder of
  src/unnamed/part_000 (`floatTo16BitPCM`).  JavaScript numbers are
  modelled by rationals: every product `s * 0x8000` (a power of two) and
  `s * 0x7FFF` (15-bit factor against a float32 sample, at most 39
  mantissa bits) is exact in the source's float64 arithmetic, and
  `DataView.setInt16` truncates its argument toward zero, so the
  rational model computes exactly the numbers the source computes on
  every representable input.
* `base64Encode` / `base64Decode` — the transport-text encoder of
  src/unnamed/part_000 (`base64Encode`): the source builds a binary
  string from the bytes and calls the platform builtin `window.btoa`,
  which is RFC 4648 standard base64; the builtin is embedded here by
  that standard algorithm.
* `transcribeAudio` — the batch transcription call of
  src/services/geminiService.ts, as a function of the externally
  supplied remote response (`none` models an absent `response.text`).
* `AppW` and the operations on it — the recording orchestration of
  src/unnamed/part_003 (the `App` component) together with
  `LiveTranscriptionService` of src/services/geminiService.ts.  React
  state is a record; every event handler is a pure function on it.
  Where the source closes over the render-time value of the `stream`
  state variable (the handlers created inside `startRecording`), the
  embedded function takes that captured value as an explicit argument,
  so the embedding reproduces the source's stale-closure behaviour
  exactly.
-/

/-! ## FrameEncoder: floatTo16BitPCM (src/unnamed/part_000, lines 37-47) -/

/-- Clamp of one sample, `Math.max(-1, Math.min(1, x))`. -/
def clampSample (s : ℚ) : ℚ := max (-1) (min 1 s)

/-- The 16-bit value the source stores for one sample:
`view.setInt16(i * 2, s < 0 ? s * 0x8000 : s * 0x7FFF, true)` applied to
the clamped sample; `setInt16` truncates toward zero (ceiling for
negative arguments, floor for nonnegative ones). -/
def pcm16 (s : ℚ) : ℤ :=
  let c := clampSample s
  if c < 0 then Int.ceil (c * 32768) else Int.floor (c * 32767)

/-- Two's-complement little-endian byte pair written by `setInt16`
with `littleEndian = true`. -/
def int16LE (v : ℤ) : List ℕ :=
  let u := (v % 65536).toNat
  [u % 256, u / 256]

/-- The whole encoder body: one little-endian 16-bit value per input
sample, in input order, into a buffer of `2 * length` bytes. -/
def floatTo16BitPCM (samples : List ℚ) : List ℕ :=
  (samples.map (fun s => int16LE (pcm16 s))).flatten

/-- Decoder written from the spec's words for the round-trip claim:
divide the encoded value by the scale factor corresponding to its sign
(32768 for negative values, 32767 otherwise). -/
def specDecodePCM16 (v : ℤ) : ℚ :=
  if v < 0 then (v : ℚ) / 32768 else (v : ℚ) / 32767

/-! ## FrameEncoder: base64Encode (src/unnamed/part_000, lines 52-60)

The source maps each byte of the buffer through
`String.fromCharCode` and feeds the resulting binary string to
`window.btoa`.  `btoa` is the platform's RFC 4648 base64 encoder; it is
embedded below by that standard algorithm over the byte list. -/

/-- The standard base64 alphabet, table 1 of RFC 4648. -/
def b64Alphabet : List Char :=
  "ABCDEFGHIJKLMNOPQRSTUVWXYZabcdefghijklmnopqrstuvwxyz0123456789+/".toList

/-- Character for one 6-bit group. -/
def b64Char (n : ℕ) : Char := b64Alphabet.getD n 'A'

/-- Index of a character in the standard alphabet. -/
def b64Index (ch : Char) : ℕ := b64Alphabet.indexOf ch

/-- Standard base64 of a byte list (the behaviour of `window.btoa` on
the binary string the source builds): three bytes become four alphabet
characters; a final group of one or two bytes is padded with `=` to a
multiple of four characters. -/
def base64Encode : List ℕ → List Char
  | [] => []
  | [a] => [b64Char (a / 4), b64Char (a % 4 * 16), '=', '=']
  | [a, b] => [b64Char (a / 4), b64Char (a % 4 * 16 + b / 16), b64Char (b % 16 * 4), '=']
  | a :: b :: c :: rest =>
      b64Char (a / 4) :: b64Char (a % 4 * 16 + b / 16) ::
      b64Char (b % 16 * 4 + c / 64) :: b64Char (c % 64) :: base64Encode rest

/-- Standard base64 decoding (the remote side's decoder), used to state
the round-trip claim. -/
def base64Decode : List Char → List ℕ
  | w :: x :: y :: z :: rest =>
      if z = '=' then
        if y = '=' then [b64Index w * 4 + b64Index x / 16]
        else [b64Index w * 4 + b64Index x / 16, b64Index x % 16 * 16 + b64Index y / 4]
      else
        (b64Index w * 4 + b64Index x / 16) ::
        (b64Index x % 16 * 16 + b64Index y / 4) ::
        (b64Index y % 4 * 64 + b64Index z) :: base64Decode rest
  | _ => []

/-! ## Batch transcription (src/services/geminiService.ts, lines 8-53) -/

/-- The sentinel string the system instruction asks the remote model to
return for silent or unintelligible audio. -/
def unintelligibleSentinel : String := "[Unintelligible]"

/-- The system instruction `transcribeAudio` sends, as built at lines
19-24 of src/services/geminiService.ts (the sentinel literal is spliced
in where the source writes it). -/
def transcriptionSystemInstruction (language : String) : String :=
  "You are an expert transcriber. \n  Your task is to transcribe the provided audio file accurately into "
    ++ language ++
    ".\n  - Return ONLY the transcribed text.\n  - Do not include timestamps, speaker labels, or conversational filler.\n  - If the audio is silent or unintelligible, return \""
    ++ unintelligibleSentinel ++
    "\".\n  - Respect proper punctuation and grammar for " ++ language ++ "."

/-- Body of `transcribeAudio`: throws when `process.env.API_KEY` is
absent, otherwise returns `response.text || \"\"` where `response.text`
is supplied by the remote service (`none` models an absent field; a JS
empty string is falsy, so both cases yield the empty string). -/
def transcribeAudio (keyPresent : Bool) (remoteText : Option String) :
    Except String String :=
  if keyPresent then
    Except.ok (match remoteText with
      | some t => if t = "" then "" else t
      | none => "")
  else
    Except.error "API Key is missing. Please check your environment configuration."

/-! ## Recording orchestration (src/unnamed/part_003 and
src/services/geminiService.ts, class LiveTranscriptionService)

The world record `AppW` holds the React state of the `App` component
plus the externally observable resources: the set of `MediaStream`
instances whose tracks are still live, and the set of live-session
connections currently open.  Fresh resources are numbered by `nextId`.

Event handlers close over the render-time value of the `stream` state
variable; where that matters (the callbacks created inside
`startRecording`), the embedded functions take the captured value as an
explicit `captured` argument.  Handlers invoked from a quiescent render
(button clicks, effects) capture the current committed value. -/

/-- Recording states, the `AppState` enum of the repository. -/
inductive RecState
  | IDLE | RECORDING | PAUSED | PROCESSING | COMPLETED | ERROR
deriving DecidableEq

/-- Externally visible actions performed during `startRecording`, in
order, used to state when device and network access happen. -/
inductive ExtEvent
  | GetUserMedia        -- navigator.mediaDevices.getUserMedia resolved
  | GetUserMediaDenied  -- getUserMedia rejected
  | CredentialFailure   -- LiveTranscriptionService constructor threw
  | ConnectRequest      -- client.live.connect was issued
  | SessionOpened       -- the live session acknowledged (onopen)
  | ConnectFailed       -- the connection attempt failed
deriving DecidableEq

/-- The component state of `App` plus the observable resources. -/
structure AppW where
  appState : RecState
  transcript : String
  errorMsg : Option String
  streamSt : Option ℕ        -- the `stream` React state (committed value)
  recordingTime : ℕ
  maxDuration : ℕ
  liveStreams : List ℕ       -- MediaStreams whose tracks are still live
  serviceRef : Option ℕ      -- liveServiceRef.current
  openSessions : List ℕ      -- live-session connections currently open
  stoppedServices : List ℕ   -- services on which stop() has been called
  nextId : ℕ
deriving DecidableEq

/-- The app as first mounted: `useState(AppState.IDLE)`, empty
transcript, no error, no stream, timer at 0, default `maxDuration` 300. -/
def initialApp : AppW :=
  { appState := RecState.IDLE, transcript := "", errorMsg := none,
    streamSt := none, recordingTime := 0, maxDuration := 300,
    liveStreams := [], serviceRef := none, openSessions := [],
    stoppedServices := [], nextId := 0 }

/-- LiveTranscriptionService.stop (geminiService.ts lines 160-179): the
session, open or still pending, is closed (a pending one via
`sessionPromise.then(session => session.close())`, so it never becomes
open later). -/
def serviceStop (w : AppW) (sv : ℕ) : AppW :=
  { w with openSessions := w.openSessions.erase sv,
           stoppedServices := w.stoppedServices ++ [sv] }

/-- Resolution of a pending `live.connect` for service `sv`: the session
becomes open unless stop() already registered a close on it. -/
def sessionResolve (w : AppW) (sv : ℕ) : AppW :=
  if w.stoppedServices.contains sv then w
  else { w with openSessions := w.openSessions ++ [sv] }

/-- Body of `stopRecording` (part_003 lines 113-125) with the
render-time value of the `stream` binding passed explicitly: stop the
service held in `liveServiceRef` (a ref, never stale), then stop the
tracks of the captured stream if it is non-null, then set COMPLETED. -/
def stopRecordingC (w : AppW) (captured : Option ℕ) : AppW :=
  let w1 := match w.serviceRef with
    | some sv => { serviceStop w sv with serviceRef := none }
    | none => w
  let w2 := match captured with
    | some st => { w1 with liveStreams := w1.liveStreams.erase st, streamSt := none }
    | none => w1
  { w2 with appState := RecState.COMPLETED }

/-- stopRecording invoked from a quiescent render (the Stop button or
the auto-stop effect): the closure captures the current committed
`stream` value. -/
def stopRecordingQ (w : AppW) : AppW := stopRecordingC w w.streamSt

/-- Body of `handleReset` (part_003 lines 139-148); on entering IDLE the
timer effect also clears the interval and keeps `recordingTime` 0. -/
def handleReset (w : AppW) : AppW :=
  let w1 := { w with appState := RecState.IDLE, transcript := "",
                     errorMsg := none, recordingTime := 0 }
  match w1.serviceRef with
  | some sv => { serviceStop w1 sv with serviceRef := none }
  | none => w1

/-- Body of `cancelRecording` (part_003 lines 127-137) with the captured
`stream` value explicit: stop service, stop captured tracks, reset. -/
def cancelRecordingC (w : AppW) (captured : Option ℕ) : AppW :=
  let w1 := match w.serviceRef with
    | some sv => { serviceStop w sv with serviceRef := none }
    | none => w
  let w2 := match captured with
    | some st => { w1 with liveStreams := w1.liveStreams.erase st, streamSt := none }
    | none => w1
  handleReset w2

/-- pauseRecording (part_003 lines 99-104): if a service is held, pause
forwarding and set PAUSED (the PAUSED branch of the timer effect then
clears the interval, freezing `recordingTime`). -/
def pauseRecording (w : AppW) : AppW :=
  match w.serviceRef with
  | some _ => { w with appState := RecState.PAUSED }
  | none => w

/-- resumeRecording (part_003 lines 106-111). -/
def resumeRecording (w : AppW) : AppW :=
  match w.serviceRef with
  | some _ => { w with appState := RecState.RECORDING }
  | none => w

/-- Body of `startRecording` (part_003 lines 57-97) run to quiescence
with no other events interleaved, with the three external outcomes as
parameters: `micOk` (getUserMedia grants), `keyOk` (`process.env.API_KEY`
is set, checked by the LiveTranscriptionService constructor), `connectOk`
(the `live.connect` attempt eventually opens).  Returns the final world
and the ordered trace of external actions.  The callbacks created here
(`onError`, and the `catch` block, both of which call code reading the
`stream` binding) captured the render-time value of `stream`, held in
`captured`.  When the connection fails, `LiveTranscriptionService.start`
catches the rejection and calls `onError` without rethrowing, so its
promise resolves and the `setAppState(AppState.RECORDING)` after the
`await` still runs. -/
def startRecording (w : AppW) (micOk keyOk connectOk : Bool) :
    AppW × List ExtEvent :=
  let captured := w.streamSt
  let w0 := { w with errorMsg := none, transcript := "" }
  if micOk then
    let sid := w0.nextId
    let w1 := { w0 with nextId := sid + 1,
                        liveStreams := w0.liveStreams ++ [sid],
                        streamSt := some sid }
    if keyOk then
      let sv := w1.nextId
      let w2 := { w1 with nextId := sv + 1, serviceRef := some sv }
      let w3 := { w2 with appState := RecState.PROCESSING }
      if connectOk then
        -- onopen fires (audio forwarding starts), the awaited promise
        -- resolves, isProcessing := true, then setAppState(RECORDING)
        let w4 := sessionResolve w3 sv
        ({ w4 with appState := RecState.RECORDING },
         [ExtEvent.GetUserMedia, ExtEvent.ConnectRequest, ExtEvent.SessionOpened])
      else
        -- service.start catch -> onError: setErrorMsg(err.message),
        -- stopRecording() with the stale captured stream, setAppState(ERROR);
        -- then service.start resolves and setAppState(RECORDING) runs
        let w4 := { w3 with errorMsg := some "Connection to Gemini interrupted." }
        let w5 := stopRecordingC w4 captured
        let w6 := { w5 with appState := RecState.ERROR }
        ({ w6 with appState := RecState.RECORDING },
         [ExtEvent.GetUserMedia, ExtEvent.ConnectRequest, ExtEvent.ConnectFailed])
    else
      -- `new LiveTranscriptionService()` throws -> App catch block:
      -- setErrorMsg, setAppState(ERROR), then `if (stream)` on the stale
      -- captured binding
      let w2 := { w1 with
        errorMsg := some "Could not start recording. Check permissions or connection.",
        appState := RecState.ERROR }
      let w3 := match captured with
        | some st => { w2 with liveStreams := w2.liveStreams.erase st, streamSt := none }
        | none => w2
      (w3, [ExtEvent.GetUserMedia, ExtEvent.CredentialFailure])
  else
    -- getUserMedia rejected -> catch block, same stale `stream` test
    let w1 := { w0 with
      errorMsg := some "Could not start recording. Check permissions or connection.",
      appState := RecState.ERROR }
    let w2 := match captured with
      | some st => { w1 with liveStreams := w1.liveStreams.erase st, streamSt := none }
      | none => w1
    (w2, [ExtEvent.GetUserMediaDenied])

/-- Prefix of `startRecording` (mic granted, key present) up to and
including `setAppState(AppState.PROCESSING)` and the issue of the
connection request, i.e. the moment the app renders the CONNECTING
state while `service.start` is still awaited. -/
def startToProcessing (w : AppW) : AppW :=
  let w0 := { w with errorMsg := none, transcript := "" }
  let sid := w0.nextId
  let w1 := { w0 with nextId := sid + 1,
                      liveStreams := w0.liveStreams ++ [sid],
                      streamSt := some sid }
  let sv := w1.nextId
  let w2 := { w1 with nextId := sv + 1, serviceRef := some sv }
  { w2 with appState := RecState.PROCESSING }

/-- Two Record clicks from the same IDLE render, the second dispatched
before the first call's `getUserMedia` promise resolves (the state is
still IDLE, so the Record button is still on screen).  The JS event
loop then runs: both synchronous prefixes; both getUserMedia
resolutions (each allocates a stream, the second `setStream` overwrites
the first); both service constructions (the second overwrites
`liveServiceRef.current`, the first service is never stopped); both
connection resolutions; both `setAppState(AppState.RECORDING)`. -/
def doubleStartFromIdle (w : AppW) : AppW :=
  let w0 := { w with errorMsg := none, transcript := "" }
  -- first getUserMedia resolves
  let sid1 := w0.nextId
  let w1 := { w0 with nextId := sid1 + 1,
                      liveStreams := w0.liveStreams ++ [sid1],
                      streamSt := some sid1 }
  let sv1 := w1.nextId
  let w2 := { w1 with nextId := sv1 + 1, serviceRef := some sv1,
                      appState := RecState.PROCESSING }
  -- second getUserMedia resolves; setStream and liveServiceRef overwritten
  let sid2 := w2.nextId
  let w3 := { w2 with nextId := sid2 + 1,
                      liveStreams := w2.liveStreams ++ [sid2],
                      streamSt := some sid2 }
  let sv2 := w3.nextId
  let w4 := { w3 with nextId := sv2 + 1, serviceRef := some sv2,
                      appState := RecState.PROCESSING }
  -- both connections open, both start calls resolve
  let w5 := sessionResolve w4 sv1
  let w6 := sessionResolve w5 sv2
  { w6 with appState := RecState.RECORDING }

/-- One firing of the one-second interval (part_003 lines 28-49): the
interval only runs while in RECORDING; the auto-stop effect then sees
the committed `recordingTime` and calls `stopRecording` when it has
reached `maxDuration`. -/
def tick (w : AppW) : AppW :=
  if w.appState = RecState.RECORDING then
    let w1 := { w with recordingTime := w.recordingTime + 1 }
    if w1.maxDuration ≤ w1.recordingTime then stopRecordingQ w1 else w1
  else w

/-- States in which the Record (start) button is rendered (part_003
line 306). -/
def startControlRendered (s : RecState) : Bool :=
  s = RecState.IDLE || s = RecState.COMPLETED || s = RecState.ERROR

/-- States in which the Stop button is rendered (part_003 lines
320-343: the recording-controls block, whose Stop button is never
disabled). -/
def stopControlRendered (s : RecState) : Bool :=
  s = RecState.RECORDING || s = RecState.PAUSED || s = RecState.PROCESSING

/-- A freshly started recording with `maxDuration` set to 60 in the
settings before start: state RECORDING, timer at 0. -/
def recordingAt60 : AppW :=
  { initialApp with appState := RecState.RECORDING, maxDuration := 60 }

/-! ## Theorems -/

theorem b64Index_b64Char : ∀ n < 64, b64Index (b64Char n) = n := by decide

theorem b64Char_ne_pad : ∀ n < 64, b64Char n ≠ '=' := by decide

theorem b64Char_mem_alphabet : ∀ n < 64, b64Char n ∈ b64Alphabet := by decide

theorem base64Decode_base64Encode :
    ∀ bs : List ℕ, (∀ b ∈ bs, b < 256) → base64Decode (base64Encode bs) = bs
  | [], _ => rfl
  | [a], h => by
      have ha : a < 256 := h a (by simp)
      simp only [base64Encode, base64Decode, if_true]
      rw [b64Index_b64Char (a / 4) (by omega), b64Index_b64Char (a % 4 * 16) (by omega)]
      simp
      omega
  | [a, b], h => by
      have ha : a < 256 := h a (by simp)
      have hb : b < 256 := h b (by simp)
      simp only [base64Encode, base64Decode, if_true]
      rw [if_neg (b64Char_ne_pad (b % 16 * 4) (by omega))]
      rw [b64Index_b64Char (a / 4) (by omega), b64Index_b64Char (a % 4 * 16 + b / 16) (by omega),
          b64Index_b64Char (b % 16 * 4) (by omega)]
      simp
      omega
  | a :: b :: c :: rest, h => by
      have ha : a < 256 := h a (by simp)
      have hb : b < 256 := h b (by simp)
      have hc : c < 256 := h c (by simp)
      have hrest : ∀ x ∈ rest, x < 256 := fun x hx => h x (by simp [hx])
      simp only [base64Encode, base64Decode]
      rw [if_neg (b64Char_ne_pad (c % 64) (by omega))]
      rw [b64Index_b64Char (a / 4) (by omega), b64Index_b64Char (a % 4 * 16 + b / 16) (by omega),
          b64Index_b64Char (b % 16 * 4 + c / 64) (by omega), b64Index_b64Char (c % 64) (by omega)]
      rw [base64Decode_base64Encode rest hrest]
      simp
      omega

theorem base64Encode_length_mod :
    ∀ bs : List ℕ, (base64Encode bs).length % 4 = 0
  | [] => rfl
  | [_] => by simp [base64Encode]
  | [_, _] => by simp [base64Encode]
  | _ :: _ :: _ :: rest => by
      have ih := base64Encode_length_mod rest
      simp only [base64Encode, List.length_cons]
      omega

theorem base64Encode_chars :
    ∀ bs : List ℕ, (∀ b ∈ bs, b < 256) →
      ∀ ch ∈ base64Encode bs, ch ∈ b64Alphabet ∨ ch = '='
  | [], _, ch, hch => by simp [base64Encode] at hch
  | [a], h, ch, hch => by
      have ha : a < 256 := h a (by simp)
      simp only [base64Encode, List.mem_cons, List.not_mem_nil, or_false] at hch
      rcases hch with rfl | rfl | rfl | rfl
      · exact Or.inl (b64Char_mem_alphabet (a / 4) (by omega))
      · exact Or.inl (b64Char_mem_alphabet (a % 4 * 16) (by omega))
      · exact Or.inr rfl
      · exact Or.inr rfl
  | [a, b], h, ch, hch => by
      have ha : a < 256 := h a (by simp)
      have hb : b < 256 := h b (by simp)
      simp only [base64Encode, List.mem_cons, List.not_mem_nil, or_false] at hch
      rcases hch with rfl | rfl | rfl | rfl
      · exact Or.inl (b64Char_mem_alphabet (a / 4) (by omega))
      · exact Or.inl (b64Char_mem_alphabet (a % 4 * 16 + b / 16) (by omega))
      · exact Or.inl (b64Char_mem_alphabet (b % 16 * 4) (by omega))
      · exact Or.inr rfl
  | a :: b :: c :: rest, h, ch, hch => by
      have ha : a < 256 := h a (by simp)
      have hb : b < 256 := h b (by simp)
      have hc : c < 256 := h c (by simp)
      have hrest : ∀ x ∈ rest, x < 256 := fun x hx => h x (by simp [hx])
      simp only [base64Encode, List.mem_cons] at hch
      rcases hch with rfl | rfl | rfl | rfl | hmem
      · exact Or.inl (b64Char_mem_alphabet (a / 4) (by omega))
      · exact Or.inl (b64Char_mem_alphabet (a % 4 * 16 + b / 16) (by omega))
      · exact Or.inl (b64Char_mem_alphabet (b % 16 * 4 + c / 64) (by omega))
      · exact Or.inl (b64Char_mem_alphabet (c % 64) (by omega))
      · exact base64Encode_chars rest hrest ch hmem

/-- C8: for every binary frame the transport-text encoding is standard
base64: every output character is drawn from the standard 64-character
alphabet (or is the `=` pad), the output length is a multiple of 4, and
standard base64 decoding recovers exactly the original bytes. -/
theorem claim_C8_base64_standard (bs : List ℕ) (h : ∀ b ∈ bs, b < 256) :
    base64Decode (base64Encode bs) = bs ∧
    (base64Encode bs).length % 4 = 0 ∧
    ∀ ch ∈ base64Encode bs, ch ∈ b64Alphabet ∨ ch = '=' :=
  ⟨base64Decode_base64Encode bs h, base64Encode_length_mod bs, base64Encode_chars bs h⟩

/-- Witness for C8 at the concrete frame [77, 97, 110, 255]. -/
theorem claim_C8_base64_standard_witness :
    (∀ b ∈ [77, 97, 110, 255], b < 256) ∧
    base64Decode (base64Encode [77, 97, 110, 255]) = [77, 97, 110, 255] :=
  ⟨by decide, (claim_C8_base64_standard [77, 97, 110, 255] (by decide)).1⟩

theorem clampSample_lower (s : ℚ) : -1 ≤ clampSample s := le_max_left _ _

theorem clampSample_upper (s : ℚ) : clampSample s ≤ 1 :=
  max_le (by norm_num) (min_le_left _ _)

theorem clampSample_of_mem {s : ℚ} (h1 : -1 ≤ s) (h2 : s ≤ 1) : clampSample s = s := by
  unfold clampSample
  rw [min_eq_right h2, max_eq_right h1]

theorem pcm16_one : pcm16 1 = 32767 := by norm_num [pcm16, clampSample]

theorem pcm16_negOne : pcm16 (-1) = -32768 := by
  norm_num [pcm16, clampSample]
  rw [show ((-32768 : ℚ)) = ((-32768 : ℤ) : ℚ) by norm_num, Int.ceil_intCast]

theorem pcm16_bounds (s : ℚ) : -32768 ≤ pcm16 s ∧ pcm16 s ≤ 32767 := by
  have h1 := clampSample_lower s
  have h2 := clampSample_upper s
  unfold pcm16
  set c := clampSample s with hc
  by_cases h : c < 0
  · rw [if_pos h]
    constructor
    · have hle : (-32768 : ℚ) ≤ c * 32768 := by linarith
      have := Int.ceil_le_ceil (α := ℚ) hle
      rwa [show ⌈(-32768 : ℚ)⌉ = -32768 by
        rw [show ((-32768 : ℚ)) = ((-32768 : ℤ) : ℚ) by norm_num, Int.ceil_intCast]] at this
    · have hle : c * 32768 ≤ 0 := by nlinarith
      have h0 : Int.ceil (c * 32768) ≤ 0 := Int.ceil_le.mpr (by push_cast; linarith)
      omega
  · rw [if_neg h]
    push_neg at h
    constructor
    · have h0 : (0 : ℤ) ≤ Int.floor (c * 32767) := Int.le_floor.mpr (by push_cast; nlinarith)
      omega
    · have hle : c * 32767 ≤ 32767 := by linarith
      have := Int.floor_le_floor (α := ℚ) hle
      rwa [show ⌊(32767 : ℚ)⌋ = 32767 by
        rw [show ((32767 : ℚ)) = ((32767 : ℤ) : ℚ) by norm_num, Int.floor_intCast]] at this

theorem pcm16_sat_high {s : ℚ} (h : 1 ≤ s) : pcm16 s = 32767 := by
  unfold pcm16 clampSample
  rw [min_eq_left h, max_eq_right (by norm_num)]
  norm_num

theorem pcm16_sat_low {s : ℚ} (h : s ≤ -1) : pcm16 s = -32768 := by
  unfold pcm16 clampSample
  rw [min_eq_right (by linarith), max_eq_left h]
  norm_num
  rw [show ((-32768 : ℚ)) = ((-32768 : ℤ) : ℚ) by norm_num, Int.ceil_intCast]

theorem floatTo16BitPCM_length (samples : List ℚ) :
    (floatTo16BitPCM samples).length = 2 * samples.length := by
  induction samples with
  | nil => rfl
  | cons x xs ih =>
      simp only [floatTo16BitPCM, List.map_cons, List.flatten_cons, List.length_append,
        List.length_cons, int16LE] at ih ⊢
      simp only [List.length_cons, List.length_nil]
      omega

/-- C6: the encoder clamps each sample to [-1, 1], scales negative
values by 32768 and nonnegative ones by 32767 into a 16-bit signed
integer, writes two bytes per sample (so the buffer is exactly twice
the input length), and out-of-range inputs saturate at the clamp
bounds instead of wrapping: the stored value always lies in
[-32768, 32767]. -/
theorem claim_C6_pcm_encoding (samples : List ℚ) (s : ℚ) :
    (floatTo16BitPCM samples).length = 2 * samples.length ∧
    (-32768 ≤ pcm16 s ∧ pcm16 s ≤ 32767) ∧
    pcm16 s = pcm16 (clampSample s) ∧
    (1 ≤ s → pcm16 s = 32767) ∧
    (s ≤ -1 → pcm16 s = -32768) ∧
    (-1 ≤ s → s ≤ 1 →
      pcm16 s = if s < 0 then Int.ceil (s * 32768) else Int.floor (s * 32767)) := by
  refine ⟨floatTo16BitPCM_length samples, pcm16_bounds s, ?_, fun h => pcm16_sat_high h,
    fun h => pcm16_sat_low h, fun h1 h2 => ?_⟩
  · have : clampSample (clampSample s) = clampSample s :=
      clampSample_of_mem (clampSample_lower s) (clampSample_upper s)
    unfold pcm16
    rw [this]
  · unfold pcm16
    rw [clampSample_of_mem h1 h2]

/-- Witness for C6 at the out-of-range samples 2 and -3. -/
theorem claim_C6_pcm_encoding_witness :
    (floatTo16BitPCM [2, -3]).length = 2 * 2 ∧ pcm16 2 = 32767 :=
  ⟨(claim_C6_pcm_encoding [2, -3] 2).1,
   (claim_C6_pcm_encoding [2, -3] 2).2.2.2.1 (by norm_num)⟩

/-- Counterexample to C7 as stated: for s = 32769/2^30 (a value exactly
representable in float32) we have s * 32767 = 1 - 2^(-30), which floors
to 0, so the sample decodes back to 0 and the recovery error is s
itself, which exceeds 1/32768.  The tight bound is 1/32767. -/
theorem claim_C7_counterexample :
    |(32769 / 1073741824 : ℚ)| ≤ 1 ∧
    1 / 32768 < |(32769 / 1073741824 : ℚ) -
      specDecodePCM16 (pcm16 (32769 / 1073741824 : ℚ))| := by
  have h0 : pcm16 (32769 / 1073741824 : ℚ) = 0 := by norm_num [pcm16, clampSample]
  constructor
  · rw [abs_le]; constructor <;> norm_num
  · rw [h0]
    norm_num [specDecodePCM16]
    rw [abs_of_nonneg (by norm_num)]
    norm_num

/-- C7 as amended: for |s| ≤ 1, encoding and then decoding by the
corresponding scale factor recovers s within absolute error strictly
less than 1/32767 (not 1/32768 as claimed), and the endpoints map to
32767 and -32768 exactly as claimed. -/
theorem claim_C7_amended_roundtrip (s : ℚ) (h : |s| ≤ 1) :
    |s - specDecodePCM16 (pcm16 s)| < 1 / 32767 ∧
    pcm16 1 = 32767 ∧ pcm16 (-1) = -32768 := by
  refine ⟨?_, pcm16_one, pcm16_negOne⟩
  obtain ⟨hl, hr⟩ := abs_le.mp h
  have hcl : clampSample s = s := clampSample_of_mem hl hr
  unfold pcm16
  rw [hcl]
  by_cases hs : s < 0
  · rw [if_pos hs]
    have hub : (Int.ceil (s * 32768) : ℚ) < s * 32768 + 1 := Int.ceil_lt_add_one _
    have hlb : s * 32768 ≤ (Int.ceil (s * 32768) : ℚ) := Int.le_ceil _
    unfold specDecodePCM16
    by_cases hvneg : Int.ceil (s * 32768) < 0
    · rw [if_pos hvneg]
      rw [abs_sub_lt_iff]
      constructor <;> linarith
    · push_neg at hvneg
      rw [if_neg (not_lt.mpr hvneg)]
      have hv0 : Int.ceil (s * 32768) ≤ 0 := Int.ceil_le.mpr (by push_cast; linarith)
      have hveq : Int.ceil (s * 32768) = 0 := le_antisymm hv0 hvneg
      rw [hveq]
      have hz : (((0 : ℤ) : ℚ) / 32767) = 0 := by norm_num
      rw [hz, sub_zero, abs_of_nonpos (le_of_lt hs)]
      rw [hveq] at hub
      push_cast at hub
      linarith
  · rw [if_neg hs]
    push_neg at hs
    have hlb : (Int.floor (s * 32767) : ℚ) ≤ s * 32767 := Int.floor_le _
    have hub : s * 32767 < (Int.floor (s * 32767) : ℚ) + 1 := Int.lt_floor_add_one _
    have hv0 : (0 : ℤ) ≤ Int.floor (s * 32767) := Int.le_floor.mpr (by push_cast; linarith)
    unfold specDecodePCM16
    rw [if_neg (not_lt.mpr hv0)]
    rw [abs_sub_lt_iff]
    constructor <;> linarith

/-- Witness for the amended C7 at s = 1/2. -/
theorem claim_C7_amended_roundtrip_witness :
    |(1 : ℚ) / 2| ≤ 1 ∧ |(1 : ℚ) / 2 - specDecodePCM16 (pcm16 (1 / 2))| < 1 / 32767 :=
  ⟨by rw [abs_le]; constructor <;> norm_num,
   (claim_C7_amended_roundtrip (1 / 2) (by rw [abs_le]; constructor <;> norm_num)).1⟩

/-- Counterexample to C4 as stated: when the remote service supplies no
text for the request (`response.text` empty), `transcribeAudio` returns
the empty string, which is not the sentinel — the `|| ""` fallback at
line 48 of geminiService.ts makes the empty string a possible return
value. -/
theorem claim_C4_counterexample :
    transcribeAudio true (some "") = Except.ok "" ∧
    (Except.ok "" : Except String String) ≠ Except.ok unintelligibleSentinel :=
  ⟨rfl, fun hh => absurd (Except.ok.inj hh) (by decide)⟩

/-- C4 as amended: the sentinel is requested, not enforced —
`transcribeAudio` sends a system instruction containing the literal
sentinel "[Unintelligible]" for silent or unintelligible audio, and
returns the remote service's text verbatim, falling back to the empty
string when the remote supplies none, so non-emptiness of the result
is not locally guaranteed. -/
theorem claim_C4_amended (language : String) (remote : Option String) :
    transcribeAudio true remote = Except.ok (remote.getD "") ∧
    ∃ p q, transcriptionSystemInstruction language = p ++ unintelligibleSentinel ++ q := by
  constructor
  · cases remote with
    | none => rfl
    | some t =>
        by_cases ht : t = ""
        · subst ht; rfl
        · simp [transcribeAudio, ht, Option.getD]
  · refine ⟨"You are an expert transcriber. \n  Your task is to transcribe the provided audio file accurately into "
      ++ language ++
      ".\n  - Return ONLY the transcribed text.\n  - Do not include timestamps, speaker labels, or conversational filler.\n  - If the audio is silent or unintelligible, return \"",
      "\".\n  - Respect proper punctuation and grammar for " ++ language ++ ".", ?_⟩
    simp [transcriptionSystemInstruction, String.append_assoc]

/-- Counterexample to C5 as stated: starting from Idle with the
credential absent and the microphone available, the external-action
trace is [GetUserMedia, CredentialFailure] — the microphone is acquired
BEFORE the credential failure is raised (the key is only checked by the
LiveTranscriptionService constructor, which runs after getUserMedia),
contradicting the claim that the failure precedes any device access. -/
theorem claim_C5_counterexample :
    (startRecording initialApp true false true).2 =
      [ExtEvent.GetUserMedia, ExtEvent.CredentialFailure] ∧
    (startRecording initialApp true false true).1.appState = RecState.ERROR :=
  ⟨rfl, rfl⟩

/-- C5 as amended: with the credential absent, the failure is raised
before any network access — no connection request is ever issued and no
session ever opens — but after the microphone has been acquired (when
permission is granted), and the start attempt ends in the Error state. -/
theorem claim_C5_amended (w : AppW) (micOk connectOk : Bool) :
    ExtEvent.ConnectRequest ∉ (startRecording w micOk false connectOk).2 ∧
    ExtEvent.SessionOpened ∉ (startRecording w micOk false connectOk).2 ∧
    (startRecording w micOk false connectOk).1.appState = RecState.ERROR := by
  cases micOk <;> cases h : w.streamSt <;>
    simp [startRecording, h]

/-- C1 fails on the code: after a start from the pristine Idle state in
which getUserMedia succeeds and the LiveTranscriptionService
constructor throws (credential absent), the final state is ERROR while
the just-acquired MediaStream (id 0) still has live tracks and is still
referenced — the catch block tests the stale render-time `stream`
binding (null), so the tracks are never stopped. -/
theorem claim_C1_violation :
    (startRecording initialApp true false true).1.appState = RecState.ERROR ∧
    (startRecording initialApp true false true).1.liveStreams = [0] ∧
    (startRecording initialApp true false true).1.streamSt = some 0 :=
  ⟨rfl, rfl, rfl⟩

/-- C2 fails on the code: two Record clicks from the same IDLE render,
the second dispatched before the first start's getUserMedia resolves,
leave two MediaStreams with live tracks (ids 0 and 2) and two open live
sessions (service ids 1 and 3) at once; `liveServiceRef` holds only the
second service, so the first is never stopped. -/
theorem claim_C2_violation :
    (doubleStartFromIdle initialApp).liveStreams = [0, 2] ∧
    (doubleStartFromIdle initialApp).openSessions = [1, 3] ∧
    (doubleStartFromIdle initialApp).serviceRef = some 3 :=
  ⟨rfl, rfl, rfl⟩

/-- C3 fails on the code: when the session fails to open,
`LiveTranscriptionService.start` catches the rejection and only calls
`onError`, so its promise resolves and `startRecording` then executes
`setAppState(AppState.RECORDING)`: the ERROR state set by the onError
callback is overwritten and the run ends in RECORDING, with the
microphone still held (stale `stream` closure) and no session open. -/
theorem claim_C3_violation :
    (startRecording initialApp true true false).1.appState = RecState.RECORDING ∧
    (startRecording initialApp true true false).1.liveStreams = [0] ∧
    (startRecording initialApp true true false).1.openSessions = [] :=
  ⟨rfl, rfl, rfl⟩

theorem stopRecordingC_appState (w : AppW) (c : Option ℕ) :
    (stopRecordingC w c).appState = RecState.COMPLETED ∧
    (stopRecordingC w c).recordingTime = w.recordingTime := by
  unfold stopRecordingC
  cases w.serviceRef <;> cases c <;> simp [serviceStop]

theorem tick_frozen (v : AppW) (h : v.appState ≠ RecState.RECORDING) : tick v = v := by
  unfold tick
  rw [if_neg h]

theorem tick_advance (v : AppW) (h : v.appState = RecState.RECORDING)
    (hm : ¬ v.maxDuration ≤ v.recordingTime + 1) :
    tick v = { v with recordingTime := v.recordingTime + 1 } := by
  simp only [tick, h, if_true, if_pos rfl]
  rw [if_neg hm]

theorem tick_complete (v : AppW) (h : v.appState = RecState.RECORDING)
    (hm : v.maxDuration ≤ v.recordingTime + 1) :
    tick v = stopRecordingQ { v with recordingTime := v.recordingTime + 1 } := by
  simp only [tick, h, if_true, if_pos rfl]
  rw [if_pos hm]

/-- C9: with maxDuration = 60, a recording started and left running is
still RECORDING with elapsed time k after every tick k < 60, and the
60th tick — the tick at which the counter reaches 60, no earlier and no
later — moves it to COMPLETED with the counter at 60; the counter only
advances while in RECORDING (a tick in any other state, in particular
PAUSED, changes nothing), and reset returns to IDLE with the counter at
0. -/
theorem claim_C9_auto_stop (w : AppW) (h1 : w.appState = RecState.RECORDING)
    (h2 : w.recordingTime = 0) (h3 : w.maxDuration = 60) :
    (∀ k < 60, (tick^[k] w).appState = RecState.RECORDING ∧
      (tick^[k] w).recordingTime = k) ∧
    (tick^[60] w).appState = RecState.COMPLETED ∧
    (tick^[60] w).recordingTime = 60 ∧
    (∀ v : AppW, v.appState ≠ RecState.RECORDING → tick v = v) ∧
    (∀ v : AppW, (handleReset v).recordingTime = 0 ∧
      (handleReset v).appState = RecState.IDLE) := by
  have key : ∀ k, k ≤ 59 → tick^[k] w = { w with recordingTime := k } := by
    intro k
    induction k with
    | zero =>
        intro _
        rw [Function.iterate_zero_apply, ← h2]
    | succ n ih =>
        intro hk
        rw [Function.iterate_succ_apply', ih (by omega)]
        rw [tick_advance { w with recordingTime := n } h1
          (by show ¬ (w.maxDuration ≤ n + 1); rw [h3]; omega)]
  have h59 := key 59 (by omega)
  have hfin : tick^[60] w = stopRecordingQ { w with recordingTime := 60 } := by
    show tick^[59 + 1] w = _
    rw [Function.iterate_succ_apply', h59, tick_complete { w with recordingTime := 59 } h1
      (by show w.maxDuration ≤ 59 + 1; rw [h3])]
  refine ⟨?_, ?_, ?_, tick_frozen, ?_⟩
  · intro k hk
    rw [key k (by omega)]
    exact ⟨h1, rfl⟩
  · rw [hfin]
    exact (stopRecordingC_appState _ _).1
  · rw [hfin]
    exact (stopRecordingC_appState _ _).2
  · intro v
    unfold handleReset
    cases v.serviceRef <;> simp [serviceStop]

/-- Witness for C9 at the concrete fresh recording with maxDuration 60. -/
theorem claim_C9_auto_stop_witness :
    (tick^[60] recordingAt60).appState = RecState.COMPLETED :=
  (claim_C9_auto_stop recordingAt60 rfl rfl rfl).2.1

/-- C10: the Stop control is rendered while in PROCESSING, and a stop
issued right after the start reached PROCESSING (from a clean Idle
state) moves the machine directly to COMPLETED with an empty
transcript, releases the microphone (no live tracks, no held stream
reference), drops the service reference, and tears down the pending
session: no session is open at that point and the pending connection,
resolving later, never becomes open either. -/
theorem claim_C10_stop_in_processing (w : AppW) (h3 : w.liveStreams = [])
    (h4 : w.openSessions = []) (h5 : w.stoppedServices = []) :
    stopControlRendered RecState.PROCESSING = true ∧
    (startToProcessing w).appState = RecState.PROCESSING ∧
    (stopRecordingQ (startToProcessing w)).appState = RecState.COMPLETED ∧
    (stopRecordingQ (startToProcessing w)).transcript = "" ∧
    (stopRecordingQ (startToProcessing w)).liveStreams = [] ∧
    (stopRecordingQ (startToProcessing w)).streamSt = none ∧
    (stopRecordingQ (startToProcessing w)).serviceRef = none ∧
    (stopRecordingQ (startToProcessing w)).openSessions = [] ∧
    (sessionResolve (stopRecordingQ (startToProcessing w))
      (w.nextId + 1)).openSessions = [] := by
  refine ⟨rfl, rfl, ?_, ?_, ?_, ?_, ?_, ?_, ?_⟩ <;>
    simp [stopRecordingQ, stopRecordingC, startToProcessing, serviceStop,
      sessionResolve, h3, h4, h5]

/-- Witness for C10 at the pristine initial app state. -/
theorem claim_C10_stop_in_processing_witness :
    (stopRecordingQ (startToProcessing initialApp)).appState = RecState.COMPLETED ∧
    (stopRecordingQ (startToProcessing initialApp)).transcript = "" ∧
    (stopRecordingQ (startToProcessing initialApp)).liveStreams = [] :=
  ⟨(claim_C10_stop_in_processing initialApp rfl rfl rfl).2.2.1,
   (claim_C10_stop_in_processing initialApp rfl rfl rfl).2.2.2.1,
   (claim_C10_stop_in_processing initialApp rfl rfl rfl).2.2.2.2.1⟩
